import Mathlib

/-!
Shallow embedding of src/rain/rain_drop.rs (the digital-rain per-drop
simulation engine).  The Rust `f32` position `fy` is modelled as an exact
rational; `u16`/`i16`/`usize` values are modelled as `Nat`/`Int` with the
explicit saturating / wrapping conversions the Rust `as` casts perform
(Rust float-to-int `as` casts saturate; integer-to-integer `as` casts wrap;
`i16` subtraction is taken with two's-complement wrap, the release-build
semantics).  The rand crate's samplers are modelled by an explicit stream
of raw entropy values: `random_range` over an empty range panics in Rust,
which the model renders as `none`.
-/

namespace Tarts

/-- Available rain-drop visual styles, from the Rust enum RainDropStyle. -/
inductive RainDropStyle where
  | Front
  | Middle
  | Back
  | Fading
  | Gradient
deriving DecidableEq, Repr

/-- Speed-bound options consumed by RainDrop (the getters
get_min_speed/get_max_speed of DigitalRainOptions). -/
structure DigitalRainOptions where
  minSpeed : Nat
  maxSpeed : Nat
deriving DecidableEq, Repr

/-- Explicit random source: an infinite stream of raw entropy values plus a
cursor.  Each sampling call consumes one stream element. -/
structure Rng where
  seq : Nat → Nat
  idx : Nat

/-- Advance the random source past one consumed value. -/
def Rng.advance (r : Rng) : Rng := ⟨r.seq, r.idx + 1⟩

/-- Raw entropy value the next sampling call will consume. -/
def Rng.peek (r : Rng) : Nat := r.seq r.idx

/-- Model of rand's random_range over an inclusive range lo..=hi: any value
of the range is reachable as the stream varies; an empty range panics
(`none`). -/
def randRangeIncl (lo hi : Nat) (r : Rng) : Option (Nat × Rng) :=
  if lo ≤ hi then some (lo + r.peek % (hi - lo + 1), r.advance) else none

/-- Model of rand's random_range over a half-open range lo..hi: an empty
range panics (`none`). -/
def randRangeExcl (lo hi : Nat) (r : Rng) : Option (Nat × Rng) :=
  if lo < hi then some (lo + r.peek % (hi - lo), r.advance) else none

/-- The flattened character pool (static CHARACTERS), concatenation of the
category strings of CHARACTERS_MAP.  HashMap iteration order is
unspecified in Rust; the claims only depend on the pool's contents, taken
here in insertion order. -/
def CHARACTERS : List Char :=
  String.toList "012345789" ++ String.toList ":.\"=*+-<>" ++
    String.toList "ﾊﾐﾋｰｳｼﾅﾓﾆｻﾜﾂｵﾘｱﾎﾃﾏｹﾒｴｶｷﾑﾕﾗｾﾈｽﾀﾇﾍ" ++ String.toList "¦çﾘｸ"

/-- Model of CHARACTERS.choose(rng).unwrap(): a uniform index into the pool.
The pool is statically non-empty, so the unwrap never faults and the getD
default is unreachable. -/
def chooseChar (r : Rng) : Char × Rng :=
  (CHARACTERS.getD (r.peek % CHARACTERS.length) ' ', r.advance)

/-- Draw n pool characters in sequence (first drawn first). -/
def drawChars : Nat → Rng → List Char × Rng
  | 0, r => ([], r)
  | Nat.succ n, r =>
    let c := chooseChar r
    let p := drawChars n c.2
    (c.1 :: p.1, p.2)

/-- The Rust match arms of Distribution for RainDropStyle, mapping a draw
in 1..=100 to a style (the wildcard arm yields Gradient). -/
def styleOfDraw (n : Nat) : RainDropStyle :=
  if 1 ≤ n ∧ n ≤ 10 then RainDropStyle.Front
  else if 11 ≤ n ∧ n ≤ 20 then RainDropStyle.Middle
  else if 21 ≤ n ∧ n ≤ 40 then RainDropStyle.Back
  else if 41 ≤ n ∧ n ≤ 50 then RainDropStyle.Fading
  else RainDropStyle.Gradient

/-- The uniform draw in 1..=100 the style sampler performs. -/
def styleDrawValue (r : Rng) : Nat := 1 + r.peek % 100

/-- Model of rand::random for RainDropStyle: draw 1..=100, map through the
match arms. -/
def randStyle (r : Rng) : RainDropStyle × Rng :=
  (styleOfDraw (styleDrawValue r), r.advance)

/-- Two's-complement wrap of an i16 arithmetic result (release semantics). -/
def wrap16 (z : ℤ) : ℤ := (z + 32768) % 65536 - 32768

/-- Rust cast u16 as i16 (bit reinterpretation). -/
def u16ToI16 (n : Nat) : ℤ := if n < 32768 then (n : ℤ) else (n : ℤ) - 65536

/-- Rust cast usize as i16 (truncation to 16 bits, then sign). -/
def usizeToI16 (n : Nat) : ℤ := u16ToI16 (n % 65536)

/-- Rust cast f32 as i16 applied to an integral float: saturating. -/
def clampI16 (z : ℤ) : ℤ := max (-32768) (min z 32767)

/-- Rust cast f32 as u16 applied to an integral float: saturating. -/
def toU16 (z : ℤ) : Nat := (max 0 (min z 65535)).toNat

/-- Rust cast i16 as u16 (bit reinterpretation). -/
def i16ToU16 (z : ℤ) : Nat := (z % 65536).toNat

/-- Model of f32::round: nearest integer, ties away from zero. -/
def roundAway (q : ℚ) : ℤ := if 0 ≤ q then ⌊q + 1 / 2⌋ else -⌊-q + 1 / 2⌋

/-- Modelled from the spec: nearest-integer rounding with ties away from
zero, phrased through Mathlib's round (which rounds half up), mirrored for
negative inputs. -/
def specRound (q : ℚ) : ℤ := if q < 0 then -round (-q) else round q

/-- The RainDrop entity: id, body (head-first), style, column, fractional
row, body-length cap and fall speed. -/
structure RainDrop where
  dropId : Nat
  body : List Char
  style : RainDropStyle
  fx : Nat
  fy : ℚ
  maxLength : Nat
  speed : Nat
deriving DecidableEq, Repr

/-- RainDrop::from_values. -/
def RainDrop.fromValues (dropId : Nat) (body : List Char) (style : RainDropStyle)
    (fx : Nat) (fy : ℚ) (maxLength : Nat) (speed : Nat) : RainDrop :=
  ⟨dropId, body, style, fx, fy, maxLength, speed⟩

/-- RainDrop::new: create a drop with randomized defaults.  Sampling order
follows the source: style, fx in 0..width, fy in 0..height/4, max_length
in 4..=(2*height/3) (u16 multiplication wraps), speed in
min_speed..=max_speed, init_length in 1..max_length/2, then the body
characters.  `none` models a panic on an empty sampling range. -/
def RainDrop.new (screen : Nat × Nat) (opts : DigitalRainOptions) (dropId : Nat)
    (rng : Rng) : Option (RainDrop × Rng) :=
  match randRangeExcl 0 screen.1 (randStyle rng).2 with
  | none => none
  | some (fx, r1) =>
    match randRangeExcl 0 (screen.2 / 4) r1 with
    | none => none
    | some (fyN, r2) =>
      match randRangeIncl 4 (2 * screen.2 % 65536 / 3) r2 with
      | none => none
      | some (maxLength, r3) =>
        match randRangeIncl opts.minSpeed opts.maxSpeed r3 with
        | none => none
        | some (speed, r4) =>
          match randRangeExcl 1 (maxLength / 2) r4 with
          | none => none
          | some (initLength, r5) =>
            some (⟨dropId,
              (chooseChar r5).1 ::
                (drawChars (initLength - 1) (chooseChar r5).2).1,
              (randStyle rng).1, fx, (fyN : ℚ), maxLength, speed⟩,
              (drawChars (initLength - 1) (chooseChar r5).2).2)

/-- RainDrop::reset: reseed the body with exactly one character, re-sample
style, set fy to 0, re-sample fx, speed and max_length (the latter in
height/4+1..=height/2).  `none` models a panic on an empty sampling
range. -/
def RainDrop.reset (d : RainDrop) (screen : Nat × Nat) (opts : DigitalRainOptions)
    (rng : Rng) : Option (RainDrop × Rng) :=
  match randRangeExcl 0 screen.1 (randStyle (chooseChar rng).2).2 with
  | none => none
  | some (fx, r1) =>
    match randRangeIncl opts.minSpeed opts.maxSpeed r1 with
    | none => none
    | some (speed, r2) =>
      match randRangeIncl (screen.2 / 4 + 1) (screen.2 / 2) r2 with
      | none => none
      | some (maxLength, r3) =>
        some ({ d with body := [(chooseChar rng).1],
                       style := (randStyle (chooseChar rng).2).1, fy := 0,
                       fx := fx, speed := speed, maxLength := maxLength }, r3)

/-- RainDrop::to_point: (fx, fy.round() as u16). -/
def RainDrop.toPoint (d : RainDrop) : Nat × Nat :=
  (d.fx, toU16 (roundAway d.fy))

/-- Loop body of RainDrop::to_points_vec: emit (fx, yy as u16, char) while
yy = head_y as i16 - index as i16 is non-negative, stop at the first
negative yy. -/
def pointsLoop (hx : Nat) (hy : ℤ) : Nat → List Char → List (Nat × Nat × Char)
  | _, [] => []
  | i, c :: rest =>
    if 0 ≤ wrap16 (hy - usizeToI16 i) then
      (hx, (wrap16 (hy - usizeToI16 i)).toNat, c) :: pointsLoop hx hy (i + 1) rest
    else []

/-- RainDrop::to_points_vec. -/
def RainDrop.toPointsVec (d : RainDrop) : List (Nat × Nat × Char) :=
  pointsLoop d.toPoint.1 (u16ToI16 d.toPoint.2) 0 d.body

/-- RainDrop::grow_condition: speed > 8. -/
def RainDrop.growCondition (d : RainDrop) : Bool := decide (8 < d.speed)

/-- RainDrop::grow: cap-truncate and return when the body is already at
max_length; otherwise insert delta (fast drops) or one (slow drops) pool
characters at the head when delta = head_y as i16 - fy.round() as i16 is
positive, then truncate to max_length. -/
def RainDrop.grow (d : RainDrop) (headY : Nat) (rng : Rng) : RainDrop × Rng :=
  if d.maxLength ≤ d.body.length then
    ({ d with body := d.body.take d.maxLength }, rng)
  else if d.growCondition then
    if 0 < wrap16 (u16ToI16 headY - clampI16 (roundAway d.fy)) then
      ({ d with body :=
          ((drawChars (wrap16 (u16ToI16 headY - clampI16 (roundAway d.fy))).toNat
              rng).1.reverse ++ d.body).take d.maxLength },
        (drawChars (wrap16 (u16ToI16 headY - clampI16 (roundAway d.fy))).toNat
          rng).2)
    else ({ d with body := d.body.take d.maxLength }, rng)
  else if 0 < wrap16 (u16ToI16 headY - clampI16 (roundAway d.fy)) then
    ({ d with body := ((chooseChar rng).1 :: d.body).take d.maxLength },
      (chooseChar rng).2)
  else ({ d with body := d.body.take d.maxLength }, rng)

/-- The new fy coordinate computed by update: fy + speed * dt seconds.
dtMillis is dt.as_millis(). -/
def RainDrop.newFy (d : RainDrop) (dtMillis : Nat) : ℚ :=
  d.fy + (d.speed : ℚ) * (dtMillis : ℚ) / 1000

/-- RainDrop::update: reset when the body is empty, else advance fy by
speed * dt and dispatch on the head/tail rows: emerging and traversing
branches grow then commit fy, the exiting branch only commits fy, the
recycling branch resets; any remaining case leaves the drop unchanged.
dtMillis is dt.as_millis(). -/
def RainDrop.update (d : RainDrop) (screen : Nat × Nat) (opts : DigitalRainOptions)
    (dtMillis : Nat) (rng : Rng) : Option (RainDrop × Rng) :=
  if d.body.isEmpty then d.reset screen opts rng
  else if wrap16 (clampI16 (roundAway (d.newFy dtMillis)) -
      usizeToI16 d.body.length) ≤ 0 then
    some ({ (d.grow (toU16 (roundAway (d.newFy dtMillis))) rng).1 with
        fy := d.newFy dtMillis },
      (d.grow (toU16 (roundAway (d.newFy dtMillis))) rng).2)
  else if toU16 (roundAway (d.newFy dtMillis)) ≤ screen.2 ∧
      0 < wrap16 (clampI16 (roundAway (d.newFy dtMillis)) -
        usizeToI16 d.body.length) then
    some ({ (d.grow (toU16 (roundAway (d.newFy dtMillis))) rng).1 with
        fy := d.newFy dtMillis },
      (d.grow (toU16 (roundAway (d.newFy dtMillis))) rng).2)
  else if screen.2 < toU16 (roundAway (d.newFy dtMillis)) ∧
      wrap16 (clampI16 (roundAway (d.newFy dtMillis)) -
        usizeToI16 d.body.length) < u16ToI16 screen.2 then
    some ({ d with fy := d.newFy dtMillis }, rng)
  else if (screen.2 : ℤ) ≤ (i16ToU16 (wrap16 (clampI16 (roundAway
      (d.newFy dtMillis)) - usizeToI16 d.body.length)) : ℤ) then
    d.reset screen opts rng
  else
    some (d, rng)

/-- An arbitrary concrete random source used for concrete evaluations. -/
def zeroRng : Rng := ⟨fun _ => 0, 0⟩

/-- Modelled from the spec: the style partition of section 4.2, written as
the plain threshold table 1-10 Front, 11-20 Middle, 21-40 Back, 41-50
Fading, 51-100 Gradient. -/
def specStyleOfDraw (n : Nat) : RainDropStyle :=
  if n ≤ 10 then RainDropStyle.Front
  else if n ≤ 20 then RainDropStyle.Middle
  else if n ≤ 40 then RainDropStyle.Back
  else if n ≤ 50 then RainDropStyle.Fading
  else RainDropStyle.Gradient

theorem randRangeExcl_eq_some {lo hi : Nat} {r : Rng} (h : lo < hi) :
    randRangeExcl lo hi r = some (lo + r.peek % (hi - lo), r.advance) := by
  simp [randRangeExcl, h]

theorem randRangeIncl_eq_some {lo hi : Nat} {r : Rng} (h : lo ≤ hi) :
    randRangeIncl lo hi r = some (lo + r.peek % (hi - lo + 1), r.advance) := by
  simp [randRangeIncl, h]

theorem randRangeExcl_none {lo hi : Nat} {r : Rng} (h : randRangeExcl lo hi r = none) :
    hi ≤ lo := by
  by_contra hc
  simp [randRangeExcl, Nat.lt_of_not_le hc] at h

theorem randRangeIncl_none {lo hi : Nat} {r : Rng} (h : randRangeIncl lo hi r = none) :
    hi < lo := by
  by_contra hc
  simp [randRangeIncl, Nat.le_of_not_lt hc] at h

theorem randRangeExcl_bounds {lo hi v : Nat} {r r2 : Rng}
    (h : randRangeExcl lo hi r = some (v, r2)) : lo ≤ v ∧ v < hi := by
  unfold randRangeExcl at h
  split at h
  · rename_i hlt
    have hm : r.peek % (hi - lo) < hi - lo := Nat.mod_lt _ (by omega)
    cases h
    omega
  · cases h

theorem randRangeIncl_bounds {lo hi v : Nat} {r r2 : Rng}
    (h : randRangeIncl lo hi r = some (v, r2)) : lo ≤ v ∧ v ≤ hi := by
  unfold randRangeIncl at h
  split at h
  · rename_i hle
    have hm : r.peek % (hi - lo + 1) < hi - lo + 1 := Nat.mod_lt _ (by omega)
    cases h
    omega
  · cases h

theorem CHARACTERS_ne_nil : CHARACTERS ≠ [] := by decide

theorem chooseChar_mem (r : Rng) : (chooseChar r).1 ∈ CHARACTERS := by
  have hlen : r.peek % CHARACTERS.length < CHARACTERS.length :=
    Nat.mod_lt _ (by decide)
  unfold chooseChar
  simp only [List.getD_eq_getElem?_getD, List.getElem?_eq_getElem hlen,
    Option.getD_some]
  exact List.getElem_mem hlen

theorem drawChars_length (n : Nat) (r : Rng) : (drawChars n r).1.length = n := by
  induction n generalizing r with
  | zero => rfl
  | succ k ih => simp [drawChars, ih]

theorem drawChars_mem (n : Nat) (r : Rng) :
    ∀ c ∈ (drawChars n r).1, c ∈ CHARACTERS := by
  induction n generalizing r with
  | zero => intro c hc; cases hc
  | succ k ih =>
    intro c hc
    simp only [drawChars, List.mem_cons] at hc
    rcases hc with hc | hc
    · rw [hc]; exact chooseChar_mem r
    · exact ih _ c hc

theorem wrap16_eq_self {z : ℤ} (h1 : -32768 ≤ z) (h2 : z ≤ 32767) : wrap16 z = z := by
  unfold wrap16
  omega

theorem u16ToI16_eq {n : Nat} (h : n < 32768) : u16ToI16 n = n := by
  unfold u16ToI16
  omega

theorem usizeToI16_eq {n : Nat} (h : n < 32768) : usizeToI16 n = n := by
  unfold usizeToI16 u16ToI16
  omega

theorem clampI16_eq {z : ℤ} (h1 : -32768 ≤ z) (h2 : z ≤ 32767) : clampI16 z = z := by
  unfold clampI16
  omega

theorem toU16_eq {z : ℤ} (h1 : 0 ≤ z) (h2 : z ≤ 65535) : toU16 z = z.toNat := by
  unfold toU16
  omega

theorem i16ToU16_eq {z : ℤ} (h1 : 0 ≤ z) (h2 : z ≤ 65535) :
    (i16ToU16 z : ℤ) = z := by
  unfold i16ToU16
  omega

theorem u16ToI16_toU16 {z : ℤ} (h1 : 0 ≤ z) (h2 : z ≤ 32767) :
    u16ToI16 (toU16 z) = z := by
  unfold toU16 u16ToI16
  split <;> omega

theorem reset_some {d : RainDrop} {screen : Nat × Nat} {opts : DigitalRainOptions}
    {rng : Rng} {p : RainDrop × Rng}
    (h : d.reset screen opts rng = some p) :
    p.1.body.length = 1 ∧ p.1.fy = 0 ∧ p.1.dropId = d.dropId ∧
      screen.2 / 4 + 1 ≤ p.1.maxLength ∧ p.1.maxLength ≤ screen.2 / 2 ∧
      opts.minSpeed ≤ p.1.speed ∧ p.1.speed ≤ opts.maxSpeed ∧
      p.1.fx < screen.1 ∧ p.1.body = [(chooseChar rng).1] := by
  unfold RainDrop.reset at h
  split at h
  · cases h
  · rename_i fx r1 hfx
    split at h
    · cases h
    · rename_i speed r2 hspeed
      split at h
      · cases h
      · rename_i maxLength r3 hml
        cases h
        have h1 := randRangeExcl_bounds hfx
        have h2 := randRangeIncl_bounds hspeed
        have h3 := randRangeIncl_bounds hml
        refine ⟨rfl, rfl, rfl, h3.1, h3.2, h2.1, h2.2, h1.2, rfl⟩

theorem reset_exists (d : RainDrop) (screen : Nat × Nat) (opts : DigitalRainOptions)
    (rng : Rng) (hw : 1 ≤ screen.1) (hs : opts.minSpeed ≤ opts.maxSpeed)
    (hh : 2 ≤ screen.2) :
    ∃ p, d.reset screen opts rng = some p := by
  have h1 : 0 < screen.1 := hw
  have h3 : screen.2 / 4 + 1 ≤ screen.2 / 2 := by omega
  simp only [RainDrop.reset, randRangeExcl_eq_some h1, randRangeIncl_eq_some hs,
    randRangeIncl_eq_some h3]
  exact ⟨_, rfl⟩

theorem take_ne_nil_of (n : Nat) (l : List Char) (hn : 1 ≤ n) (hl : 1 ≤ l.length) :
    l.take n ≠ [] := by
  intro hnil
  have h := congrArg List.length hnil
  simp only [List.length_take, List.length_nil] at h
  omega

theorem grow_maxLength (d : RainDrop) (headY : Nat) (rng : Rng) :
    ((d.grow headY rng).1).maxLength = d.maxLength := by
  unfold RainDrop.grow
  split_ifs <;> rfl

theorem grow_length_le (d : RainDrop) (headY : Nat) (rng : Rng) :
    ((d.grow headY rng).1).body.length ≤ d.maxLength := by
  unfold RainDrop.grow
  split_ifs <;> simp only [List.length_take] <;> omega

theorem grow_body_ne_nil (d : RainDrop) (headY : Nat) (rng : Rng)
    (hb : d.body ≠ []) (hml : 1 ≤ d.maxLength) :
    ((d.grow headY rng).1).body ≠ [] := by
  have hlen : 1 ≤ d.body.length := List.length_pos.2 hb
  unfold RainDrop.grow
  split_ifs <;>
    exact take_ne_nil_of _ _ (by omega)
      (by (try simp only [List.length_append, List.length_cons,
            List.length_reverse]); omega)

theorem update_post {d : RainDrop} {screen : Nat × Nat} {opts : DigitalRainOptions}
    {dtMillis : Nat} {rng : Rng} {p : RainDrop × Rng}
    (h : d.update screen opts dtMillis rng = some p) (P : RainDrop → Prop)
    (hreset : ∀ q : RainDrop × Rng, d.reset screen opts rng = some q → P q.1)
    (hgrow : ∀ headY : Nat,
      P { (d.grow headY rng).1 with fy := d.newFy dtMillis })
    (hkeep : P { d with fy := d.newFy dtMillis })
    (hid : P d) : P p.1 := by
  unfold RainDrop.update at h
  split_ifs at h
  · exact hreset _ h
  · cases h; exact hgrow _
  · cases h; exact hgrow _
  · cases h; exact hkeep
  · exact hreset _ h
  · cases h; exact hid

theorem roundAway_eq_specRound (q : ℚ) : roundAway q = specRound q := by
  unfold roundAway specRound
  rcases lt_trichotomy q 0 with h | h | h
  · rw [if_neg (not_le.2 h), if_pos h, round_eq]
  · subst h; norm_num [round_eq]
  · rw [if_pos h.le, if_neg (not_lt.2 h.le), round_eq]

theorem specRound_nearest (q : ℚ) : |q - specRound q| ≤ 1 / 2 := by
  unfold specRound
  split_ifs with h
  · rw [show q - ((-round (-q) : ℤ) : ℚ) = -(-q - ((round (-q) : ℤ) : ℚ)) by
      push_cast; ring, abs_neg]
    exact abs_sub_round (-q)
  · exact abs_sub_round q

theorem specRound_half_nat (x : ℕ) : specRound ((x : ℚ) + 1 / 2) = x + 1 := by
  unfold specRound
  rw [if_neg (not_lt.2 (by positivity)), round_eq]
  rw [show (x : ℚ) + 1 / 2 + 1 / 2 = ((x + 1 : ℤ) : ℚ) by push_cast; ring]
  rw [Int.floor_intCast]

theorem new_some {screen : Nat × Nat} {opts : DigitalRainOptions} {dropId : Nat}
    {rng : Rng} {p : RainDrop × Rng}
    (h : RainDrop.new screen opts dropId rng = some p) :
    1 ≤ p.1.body.length ∧ p.1.body.length ≤ p.1.maxLength / 2 ∧
      opts.minSpeed ≤ p.1.speed ∧ p.1.speed ≤ opts.maxSpeed ∧
      4 ≤ p.1.maxLength ∧ p.1.maxLength ≤ 2 * screen.2 / 3 ∧
      p.1.fx < screen.1 ∧ 0 ≤ p.1.fy ∧ p.1.fy < ((screen.2 / 4 : Nat) : ℚ) ∧
      p.1.dropId = dropId := by
  unfold RainDrop.new at h
  split at h
  · cases h
  · rename_i fx r1 hfx
    split at h
    · cases h
    · rename_i fyN r2 hfy
      split at h
      · cases h
      · rename_i maxLength r3 hml
        split at h
        · cases h
        · rename_i speed r4 hspeed
          split at h
          · cases h
          · rename_i initLength r5 hinit
            cases h
            dsimp only
            have b1 := randRangeExcl_bounds hfx
            have b2 := randRangeExcl_bounds hfy
            have b3 := randRangeIncl_bounds hml
            have b4 := randRangeIncl_bounds hspeed
            have b5 := randRangeExcl_bounds hinit
            have hlen : ((chooseChar r5).1 ::
                (drawChars (initLength - 1) (chooseChar r5).2).1).length =
                initLength := by
              simp only [List.length_cons, drawChars_length]
              omega
            have hmod : maxLength ≤ 2 * screen.2 / 3 :=
              le_trans b3.2 (Nat.div_le_div_right (Nat.mod_le _ _))
            refine ⟨by omega, by omega, b4.1, b4.2, b3.1, hmod, b1.2,
              Nat.cast_nonneg fyN, ?_, rfl⟩
            exact_mod_cast Nat.cast_lt.2 b2.2

theorem new_exists (screen : Nat × Nat) (opts : DigitalRainOptions) (dropId : Nat)
    (rng : Rng) (hw : 1 ≤ screen.1) (hh : 6 ≤ screen.2) (hcap : screen.2 ≤ 32767)
    (hs : opts.minSpeed ≤ opts.maxSpeed) :
    ∃ p, RainDrop.new screen opts dropId rng = some p := by
  have h1 : 0 < screen.1 := hw
  have h2 : 0 < screen.2 / 4 := by omega
  have h3 : 4 ≤ 2 * screen.2 % 65536 / 3 := by omega
  have h5 : ∀ x k : Nat, 1 < (4 + x % k) / 2 :=
    fun x k => lt_of_lt_of_le (by norm_num)
      (Nat.div_le_div_right (Nat.le_add_right 4 (x % k)))
  simp only [RainDrop.new, randRangeExcl_eq_some h1, randRangeExcl_eq_some h2,
    randRangeIncl_eq_some h3, randRangeIncl_eq_some hs]
  rw [randRangeExcl_eq_some (h5 _ _)]
  exact ⟨_, rfl⟩

theorem pointsLoop_spec (hx : Nat) (R : ℤ) (h0 : 0 ≤ R) (h1 : R ≤ 32767) :
    ∀ (body : List Char) (i : Nat), (i : ℤ) ≤ R + 1 →
      pointsLoop hx R i body =
        (List.range (min body.length (R.toNat + 1 - i))).map
          (fun j => (hx, R.toNat - (i + j), body.getD j ' ')) := by
  intro body
  induction body with
  | nil => intro i hi; simp [pointsLoop]
  | cons c rest ih =>
    intro i hi
    by_cases hle : (i : ℤ) ≤ R
    · have hi32 : i < 32768 := by omega
      have key : wrap16 (R - usizeToI16 i) = R - i := by
        rw [usizeToI16_eq hi32]; exact wrap16_eq_self (by omega) (by omega)
      simp only [pointsLoop, key, if_pos (show (0 : ℤ) ≤ R - i by omega)]
      rw [ih (i + 1) (by push_cast; omega)]
      have hm : min (rest.length + 1) (R.toNat + 1 - i) =
          min rest.length (R.toNat + 1 - (i + 1)) + 1 := by omega
      rw [List.length_cons, hm, List.range_succ_eq_map, List.map_cons,
        List.map_map]
      congr 1
      · simp only [Nat.add_zero, List.getD_cons_zero]
        have : (R - (i : ℤ)).toNat = R.toNat - i := by omega
        rw [this]
      · refine List.map_congr_left fun j hj => ?_
        simp only [Function.comp_apply, List.getD_cons_succ]
        have : i + (j + 1) = i + 1 + j := by omega
        rw [this]
    · have hkey : wrap16 (R - usizeToI16 i) < 0 := by
        unfold usizeToI16 u16ToI16 wrap16
        split_ifs <;> omega
      simp only [pointsLoop, if_neg (not_le.2 hkey)]
      have hz : R.toNat + 1 - i = 0 := by omega
      simp [hz]

/-- Claim C7: every drop produced by RainDrop::new satisfies
1 <= body.len() <= max_length/2, min_speed <= speed <= max_speed,
4 <= max_length <= 2*height/3, fx < width and 0 <= fy < height/4. -/
theorem new_drop_invariants (screen : Nat × Nat) (opts : DigitalRainOptions)
    (dropId : Nat) (rng : Rng) (p : RainDrop × Rng)
    (hnew : RainDrop.new screen opts dropId rng = some p) :
    1 ≤ p.1.body.length ∧ p.1.body.length ≤ p.1.maxLength / 2 ∧
      opts.minSpeed ≤ p.1.speed ∧ p.1.speed ≤ opts.maxSpeed ∧
      4 ≤ p.1.maxLength ∧ p.1.maxLength ≤ 2 * screen.2 / 3 ∧
      p.1.fx < screen.1 ∧ 0 ≤ p.1.fy ∧ p.1.fy < ((screen.2 / 4 : Nat) : ℚ) := by
  obtain ⟨a, b, c, d, e, f, g, h, i, _⟩ := new_some hnew
  exact ⟨a, b, c, d, e, f, g, h, i⟩

/-- Claim C3: body.len() <= max_length holds immediately after grow returns
(unconditionally) and immediately after a successful update, provided the
drop satisfied the invariant before the call. -/
theorem body_length_le_maxLength (d : RainDrop) (headY : Nat) (rng : Rng)
    (screen : Nat × Nat) (opts : DigitalRainOptions) (dtMillis : Nat)
    (p : RainDrop × Rng) (hinv : d.body.length ≤ d.maxLength)
    (hup : d.update screen opts dtMillis rng = some p) :
    ((d.grow headY rng).1).body.length ≤ ((d.grow headY rng).1).maxLength ∧
      p.1.body.length ≤ p.1.maxLength := by
  constructor
  · rw [grow_maxLength]
    exact grow_length_le d headY rng
  · refine update_post hup (fun x => x.body.length ≤ x.maxLength) ?_ ?_ ?_ hinv
    · intro q hq
      obtain ⟨e1, _, _, e4, _⟩ := reset_some hq
      omega
    · intro hy
      show ((d.grow hy rng).1).body.length ≤ ((d.grow hy rng).1).maxLength
      rw [grow_maxLength]
      exact grow_length_le d hy rng
    · exact hinv

/-- Claim C4: update on an empty body immediately resets the drop: any
successful call yields body.len() == 1 and fy == 0 and does not advance
the position. -/
theorem update_empty_body_resets (d : RainDrop) (screen : Nat × Nat)
    (opts : DigitalRainOptions) (dtMillis : Nat) (rng : Rng) (p : RainDrop × Rng)
    (hb : d.body = []) (hup : d.update screen opts dtMillis rng = some p) :
    p.1.body.length = 1 ∧ p.1.fy = 0 := by
  unfold RainDrop.update at hup
  rw [if_pos (by simp [hb])] at hup
  have h := reset_some hup
  exact ⟨h.1, h.2.1⟩

/-- Claim C9: the style sampler draws a uniform value in 1..=100 and maps
it through the fixed partition 1-10 Front, 11-20 Middle, 21-40 Back,
41-50 Fading, 51-100 Gradient. -/
theorem style_partition (r : Rng) (n : Nat) (h1 : 1 ≤ n) (h2 : n ≤ 100) :
    1 ≤ styleDrawValue r ∧ styleDrawValue r ≤ 100 ∧
      (randStyle r).1 = styleOfDraw (styleDrawValue r) ∧
      styleOfDraw n = specStyleOfDraw n := by
  have hm : r.peek % 100 < 100 := Nat.mod_lt _ (by omega)
  refine ⟨by unfold styleDrawValue; omega, by unfold styleDrawValue; omega,
    rfl, ?_⟩
  unfold styleOfDraw specStyleOfDraw
  split_ifs <;> first | rfl | omega

/-- Claim C10: a non-empty body with max_length >= 1 stays non-empty across
any single grow or successful update, and reset seeds exactly one
character, so the empty-body guard in update is unreachable for drops kept
well-formed by these operations. -/
theorem body_nonempty_preserved (d : RainDrop) (headY : Nat)
    (rng rngu rngr : Rng) (screen : Nat × Nat) (opts : DigitalRainOptions)
    (dtMillis : Nat) (p q : RainDrop × Rng)
    (hb : d.body ≠ []) (hml : 1 ≤ d.maxLength)
    (hup : d.update screen opts dtMillis rngu = some p)
    (hres : d.reset screen opts rngr = some q) :
    ((d.grow headY rng).1).body ≠ [] ∧ p.1.body ≠ [] ∧ q.1.body.length = 1 := by
  refine ⟨grow_body_ne_nil d headY rng hb hml, ?_, (reset_some hres).1⟩
  refine update_post hup (fun x => x.body ≠ []) ?_ ?_ ?_ hb
  · intro q2 hq2
    have h := (reset_some hq2).1
    intro hnil
    rw [hnil] at h
    simp at h
  · intro hy
    show ((d.grow hy rngu).1).body ≠ []
    exact grow_body_ne_nil d hy rngu hb hml
  · exact hb

/-- Claim C1 (amended): for a non-empty body, a workable configuration
(width >= 1, min_speed <= max_speed, height >= 2) and a new head row that
stays in i16 range (round(new_fy) <= 32767), a tick whose tail row
round(new_fy) - body.len() is at least the height recycles the drop:
update succeeds with fy == 0, body.len() == 1 and max_length re-sampled
inside height/4 + 1 ..= height/2. -/
theorem update_recycles (d : RainDrop) (screen : Nat × Nat)
    (opts : DigitalRainOptions) (dtMillis : Nat) (rng : Rng)
    (hb : d.body ≠ []) (hw : 1 ≤ screen.1) (hs : opts.minSpeed ≤ opts.maxSpeed)
    (hh : 2 ≤ screen.2) (hR : roundAway (d.newFy dtMillis) ≤ 32767)
    (htail : (screen.2 : ℤ) + d.body.length ≤ roundAway (d.newFy dtMillis)) :
    ∃ p, d.update screen opts dtMillis rng = some p ∧ p.1.fy = 0 ∧
      p.1.body.length = 1 ∧ screen.2 / 4 + 1 ≤ p.1.maxLength ∧
      p.1.maxLength ≤ screen.2 / 2 := by
  obtain ⟨q, hq⟩ := reset_exists d screen opts rng hw hs hh
  have hpost := reset_some hq
  refine ⟨q, ?_, hpost.2.1, hpost.1, hpost.2.2.2.1, hpost.2.2.2.2.1⟩
  have hlen1 : 1 ≤ d.body.length := List.length_pos.2 hb
  have hne : ¬(d.body.isEmpty = true) := by simpa [List.isEmpty_iff] using hb
  unfold RainDrop.update
  rw [if_neg hne]
  set R := roundAway (d.newFy dtMillis) with hRdef
  have hlen2 : (d.body.length : ℤ) ≤ 32765 := by omega
  have hclamp : clampI16 R = R := clampI16_eq (by omega) (by omega)
  have husize : usizeToI16 d.body.length = (d.body.length : ℤ) :=
    usizeToI16_eq (by omega)
  rw [hclamp, husize]
  have hwrap : wrap16 (R - (d.body.length : ℤ)) = R - (d.body.length : ℤ) :=
    wrap16_eq_self (by omega) (by omega)
  rw [hwrap]
  have htoU : toU16 R = R.toNat := toU16_eq (by omega) (by omega)
  rw [htoU]
  have hu16h : u16ToI16 screen.2 = (screen.2 : ℤ) := u16ToI16_eq (by omega)
  rw [hu16h]
  have hi16 : (i16ToU16 (R - (d.body.length : ℤ)) : ℤ) =
      R - (d.body.length : ℤ) := i16ToU16_eq (by omega) (by omega)
  rw [if_neg (by omega : ¬(R - (d.body.length : ℤ) ≤ 0))]
  rw [if_neg (by omega : ¬(R.toNat ≤ screen.2 ∧ 0 < R - (d.body.length : ℤ)))]
  rw [if_neg (by omega :
    ¬(screen.2 < R.toNat ∧ R - (d.body.length : ℤ) < (screen.2 : ℤ)))]
  rw [if_pos (by rw [hi16]; omega :
    (screen.2 : ℤ) ≤ (i16ToU16 (R - (d.body.length : ℤ)) : ℤ))]
  exact hq

/-- Claim C1 counterexample: a drop whose mathematical tail row
round(new_fy) - body.len() = 64999 exceeds the height 60000, yet whose
head row 65001 overflows the i16 range, falls through every update branch
unchanged: fy stays 1, the body keeps both characters and max_length stays
5 outside height/4 + 1 ..= height/2, contradicting the claim at height
60000 >= 1. -/
theorem update_recycles_cex :
    (RainDrop.fromValues 1 ['a', 'b'] RainDropStyle.Gradient 0 1 5
        65000).update (10, 60000) ⟨1, 1⟩ 1000 zeroRng =
      some (RainDrop.fromValues 1 ['a', 'b'] RainDropStyle.Gradient 0 1 5
        65000, zeroRng) ∧
    (60000 : ℤ) + (2 : ℕ) ≤
      roundAway ((RainDrop.fromValues 1 ['a', 'b'] RainDropStyle.Gradient 0 1 5
        65000).newFy 1000) ∧
    (RainDrop.fromValues 1 ['a', 'b'] RainDropStyle.Gradient 0 1 5
        65000).fy ≠ 0 ∧
    (RainDrop.fromValues 1 ['a', 'b'] RainDropStyle.Gradient 0 1 5
        65000).body.length ≠ 1 := by
  have hX : (RainDrop.fromValues 1 ['a', 'b'] RainDropStyle.Gradient 0 1 5
      65000).newFy 1000 = 65001 := by
    norm_num [RainDrop.newFy, RainDrop.fromValues]
  have hR : roundAway ((RainDrop.fromValues 1 ['a', 'b'] RainDropStyle.Gradient
      0 1 5 65000).newFy 1000) = 65001 := by
    rw [hX]
    unfold roundAway
    rw [if_pos (by norm_num)]
    norm_num
  refine ⟨?_, by rw [hR]; norm_num, by norm_num [RainDrop.fromValues], by decide⟩
  unfold RainDrop.update
  rw [if_neg (by decide)]
  rw [hR]
  rfl

/-- Claim C2 (amended): provided the body is below capacity on entry and
head_row and round(fy) lie in the value-preserving i16 range, grow with
delta = head_row - round(fy) inserts exactly delta pool characters at the
head before the cap truncation for fast drops (speed > 8), exactly one for
slow drops (speed <= 8), and none when delta <= 0; so a drop with speed 12
whose head advanced 2 rows grows by exactly 2, capacity permitting. -/
theorem grow_insert_counts (d : RainDrop) (headY : Nat) (rng : Rng)
    (hcap : d.body.length < d.maxLength) (hH : headY ≤ 32767)
    (h0 : 0 ≤ roundAway d.fy) (h1 : roundAway d.fy ≤ 32767) :
    (8 < d.speed → 0 < (headY : ℤ) - roundAway d.fy →
      ∃ cs : List Char, cs.length = ((headY : ℤ) - roundAway d.fy).toNat ∧
        (∀ c ∈ cs, c ∈ CHARACTERS) ∧
        ((d.grow headY rng).1).body = (cs ++ d.body).take d.maxLength) ∧
    (d.speed ≤ 8 → 0 < (headY : ℤ) - roundAway d.fy →
      ∃ c ∈ CHARACTERS,
        ((d.grow headY rng).1).body = (c :: d.body).take d.maxLength) ∧
    ((headY : ℤ) - roundAway d.fy ≤ 0 → ((d.grow headY rng).1).body = d.body) := by
  have hδ : wrap16 (u16ToI16 headY - clampI16 (roundAway d.fy)) =
      (headY : ℤ) - roundAway d.fy := by
    rw [u16ToI16_eq (by omega), clampI16_eq (by omega) (by omega)]
    exact wrap16_eq_self (by omega) (by omega)
  refine ⟨?_, ?_, ?_⟩
  · intro hfast hpos
    refine ⟨((drawChars ((headY : ℤ) - roundAway d.fy).toNat rng).1).reverse,
      by simp [drawChars_length], ?_, ?_⟩
    · intro c hc
      exact drawChars_mem _ _ c (List.mem_reverse.1 hc)
    · unfold RainDrop.grow
      rw [hδ, if_neg (not_le.2 hcap),
        if_pos (show d.growCondition = true by
          simp [RainDrop.growCondition, hfast]),
        if_pos hpos]
  · intro hslow hpos
    refine ⟨(chooseChar rng).1, chooseChar_mem rng, ?_⟩
    unfold RainDrop.grow
    rw [hδ, if_neg (not_le.2 hcap),
      if_neg (show ¬d.growCondition = true by
        simp [RainDrop.growCondition]; omega),
      if_pos hpos]
  · intro hnonpos
    unfold RainDrop.grow
    rw [hδ, if_neg (not_le.2 hcap)]
    by_cases hg : d.growCondition = true
    · rw [if_pos hg, if_neg (not_lt.2 hnonpos)]
      show d.body.take d.maxLength = d.body
      exact List.take_of_length_le (le_of_lt hcap)
    · rw [if_neg hg, if_neg (not_lt.2 hnonpos)]
      show d.body.take d.maxLength = d.body
      exact List.take_of_length_le (le_of_lt hcap)

/-- Claim C2 counterexample: a fast drop (speed 12) already at capacity
(body.len() = max_length = 1) with claimed delta = 2 - round(0) = 2 > 0
takes the early-return path: grow inserts nothing and consumes no
randomness, leaving the body exactly ['a'], a character that is not even in
the pool, so no characters were inserted at the head. -/
theorem grow_insert_counts_cex :
    ((RainDrop.fromValues 0 ['a'] RainDropStyle.Front 0 0 1 12).grow 2
        zeroRng).1.body = ['a'] ∧
    ((RainDrop.fromValues 0 ['a'] RainDropStyle.Front 0 0 1 12).grow 2
        zeroRng).2 = zeroRng ∧
    'a' ∉ CHARACTERS ∧ (8 : ℕ) < 12 ∧
    (0 : ℤ) < (2 : ℕ) - roundAway (RainDrop.fromValues 0 ['a']
      RainDropStyle.Front 0 0 1 12).fy := by
  have h0 : roundAway (RainDrop.fromValues 0 ['a'] RainDropStyle.Front 0 0 1
      12).fy = 0 := by
    show roundAway (0 : ℚ) = 0
    unfold roundAway
    rw [if_pos (by norm_num)]
    norm_num
  have hgrow : ((RainDrop.fromValues 0 ['a'] RainDropStyle.Front 0 0 1
      12).grow 2 zeroRng) = (RainDrop.fromValues 0 ['a'] RainDropStyle.Front
      0 0 1 12, zeroRng) := by
    unfold RainDrop.grow
    rw [if_pos (by decide)]
    rfl
  refine ⟨by rw [hgrow]; rfl, by rw [hgrow], by decide, by norm_num, ?_⟩
  rw [h0]
  norm_num

/-- Claim C5 (amended): when round(fy) lies in 0..32767 (head row neither
negative nor beyond the value-preserving i16 range), to_points_vec emits
(fx, round(fy) - i, body[i]) for ascending i from 0, stopping at the first
negative projected row: it equals the map over the first
min(body.len(), round(fy) + 1) indices, its length is the number of body
indices with non-negative projected row, and it is body.len() whenever
round(fy) >= body.len() - 1. -/
theorem toPointsVec_projection (d : RainDrop) (h0 : 0 ≤ roundAway d.fy)
    (h1 : roundAway d.fy ≤ 32767) :
    d.toPointsVec =
      (List.range (min d.body.length ((roundAway d.fy).toNat + 1))).map
        (fun j => (d.fx, (roundAway d.fy).toNat - j, d.body.getD j ' ')) ∧
      d.toPointsVec.length = min d.body.length ((roundAway d.fy).toNat + 1) ∧
      (d.body.length ≤ (roundAway d.fy).toNat + 1 →
        d.toPointsVec.length = d.body.length) := by
  have hmain : d.toPointsVec =
      (List.range (min d.body.length ((roundAway d.fy).toNat + 1))).map
        (fun j => (d.fx, (roundAway d.fy).toNat - j, d.body.getD j ' ')) := by
    unfold RainDrop.toPointsVec RainDrop.toPoint
    dsimp only
    rw [u16ToI16_toU16 h0 h1]
    rw [pointsLoop_spec d.fx (roundAway d.fy) h0 h1 d.body 0 (by omega)]
    simp
  refine ⟨hmain, ?_, ?_⟩
  · rw [hmain]
    simp
  · intro hlen
    rw [hmain]
    simp
    omega

/-- Claim C5 counterexample: a drop at fy = 40000 with one body character
has projected row round(fy) - 0 = 40000 >= 0, so the claim demands one
emitted point, but head_y as i16 wraps to -25536 and the loop stops at
once: to_points_vec is empty. -/
theorem toPointsVec_projection_cex :
    (RainDrop.fromValues 0 ['a'] RainDropStyle.Front 5 40000 5 1).toPointsVec =
      [] ∧
    (RainDrop.fromValues 0 ['a'] RainDropStyle.Front 5 40000 5
      1).body.length = 1 ∧
    (0 : ℤ) ≤ roundAway (RainDrop.fromValues 0 ['a'] RainDropStyle.Front 5
      40000 5 1).fy := by
  have hproj : (RainDrop.fromValues 0 ['a'] RainDropStyle.Front 5 40000 5
      1).fy = (40000 : ℚ) := rfl
  have hR : roundAway (40000 : ℚ) = 40000 := by
    unfold roundAway
    rw [if_pos (by norm_num)]
    norm_num
  refine ⟨?_, by decide, by rw [hproj, hR]; norm_num⟩
  unfold RainDrop.toPointsVec RainDrop.toPoint
  rw [hproj, hR]
  rfl

/-- Claim C6 (amended): whenever round(fy) lies in the u16 range 0..65535,
to_point returns exactly (fx, round(fy)), where round is nearest-integer
rounding with ties away from zero: it is within 1/2 of fy, rounds 10.8 to
11, and rounds x.5 to x + 1 for natural x. -/
theorem toPoint_projection (d : RainDrop) (h0 : 0 ≤ specRound d.fy)
    (h1 : specRound d.fy ≤ 65535) :
    d.toPoint = (d.fx, (specRound d.fy).toNat) ∧
      |d.fy - specRound d.fy| ≤ 1 / 2 ∧
      specRound (108 / 10 : ℚ) = 11 ∧
      (∀ x : ℕ, specRound ((x : ℚ) + 1 / 2) = x + 1) := by
  refine ⟨?_, specRound_nearest d.fy, ?_, specRound_half_nat⟩
  · unfold RainDrop.toPoint
    rw [roundAway_eq_specRound, toU16_eq h0 h1]
  · unfold specRound
    rw [if_neg (by norm_num), round_eq]
    norm_num

/-- Claim C6 counterexample: at fy = 70000 the rounded row 70000 exceeds
the u16 range, the saturating cast clamps it and to_point returns
(3, 65535), not (fx, round(fy)) = (3, 70000). -/
theorem toPoint_projection_cex :
    (RainDrop.fromValues 0 ['a'] RainDropStyle.Front 3 70000 5 1).toPoint =
      (3, 65535) ∧
    specRound (RainDrop.fromValues 0 ['a'] RainDropStyle.Front 3 70000 5
      1).fy = 70000 ∧
    (RainDrop.fromValues 0 ['a'] RainDropStyle.Front 3 70000 5 1).toPoint ≠
      (3, (specRound (RainDrop.fromValues 0 ['a'] RainDropStyle.Front 3 70000
        5 1).fy).toNat) := by
  have hproj : (RainDrop.fromValues 0 ['a'] RainDropStyle.Front 3 70000 5
      1).fy = (70000 : ℚ) := rfl
  have hs : specRound (70000 : ℚ) = 70000 := by
    unfold specRound
    rw [if_neg (by norm_num), round_eq]
    norm_num
  have hr : roundAway (70000 : ℚ) = 70000 := by
    rw [roundAway_eq_specRound, hs]
  have htp : (RainDrop.fromValues 0 ['a'] RainDropStyle.Front 3 70000 5
      1).toPoint = (3, 65535) := by
    unfold RainDrop.toPoint
    rw [hproj, hr]
    rfl
  refine ⟨htp, by rw [hproj, hs], ?_⟩
  rw [htp, hproj, hs]
  decide

/-- Claim C8 (amended): creation completes without fault whenever width >=
1, 6 <= height <= 32767 and min_speed <= max_speed (so every sampling
range it builds is non-empty), and reset does so whenever width >= 1,
height >= 2 and min_speed <= max_speed. -/
theorem new_reset_tolerance (screen screen2 : Nat × Nat)
    (opts : DigitalRainOptions) (dropId : Nat) (rng rng2 : Rng) (d : RainDrop)
    (hw : 1 ≤ screen.1) (hh6 : 6 ≤ screen.2) (hcap : screen.2 ≤ 32767)
    (hs : opts.minSpeed ≤ opts.maxSpeed)
    (hw2 : 1 ≤ screen2.1) (hh2 : 2 ≤ screen2.2) :
    (∃ p, RainDrop.new screen opts dropId rng = some p) ∧
      (∃ q, d.reset screen2 opts rng2 = some q) :=
  ⟨new_exists screen opts dropId rng hw hh6 hcap hs,
    reset_exists d screen2 opts rng2 hw2 hs hh2⟩

/-- Claim C8 counterexample: on the positive surface 1 by 1 with valid
speed bounds 1..=1, creation builds the empty sampling range 0..(1/4) for
fy and panics, modelled as returning none. -/
theorem new_reset_tolerance_cex :
    RainDrop.new (1, 1) ⟨1, 1⟩ 0 zeroRng = none ∧ 1 ≤ (1 : ℕ) :=
  ⟨rfl, le_refl 1⟩

theorem recycle_eval :
    (RainDrop.fromValues 1 ['a'] RainDropStyle.Back 0 150 3 10).update
        (100, 100) ⟨10, 20⟩ 0 zeroRng =
      some (⟨1, ['0'], RainDropStyle.Front, 0, 0, 26, 10⟩,
        ⟨fun _ => 0, 5⟩) := by
  have hfy : (RainDrop.fromValues 1 ['a'] RainDropStyle.Back 0 150 3
      10).newFy 0 = (150 : ℚ) := by
    norm_num [RainDrop.newFy, RainDrop.fromValues]
  have hR : roundAway ((RainDrop.fromValues 1 ['a'] RainDropStyle.Back 0 150 3
      10).newFy 0) = 150 := by
    rw [hfy]
    unfold roundAway
    rw [if_pos (by norm_num)]
    norm_num
  unfold RainDrop.update
  rw [if_neg (by decide), hR]
  rfl

theorem roundAway_zero : roundAway (0 : ℚ) = 0 := by
  unfold roundAway
  rw [if_pos (by norm_num)]
  norm_num

theorem update_recycles_witness :
    ((100 : ℤ) + ((RainDrop.fromValues 1 ['a'] RainDropStyle.Back 0 150 3
        10).body.length : ℤ) ≤
      roundAway ((RainDrop.fromValues 1 ['a'] RainDropStyle.Back 0 150 3
        10).newFy 0)) ∧
    (∃ p, (RainDrop.fromValues 1 ['a'] RainDropStyle.Back 0 150 3 10).update
        (100, 100) ⟨10, 20⟩ 0 zeroRng = some p ∧ p.1.fy = 0 ∧
      p.1.body.length = 1 ∧ (100, 100).2 / 4 + 1 ≤ p.1.maxLength ∧
      p.1.maxLength ≤ (100, 100).2 / 2) := by
  have hfy : (RainDrop.fromValues 1 ['a'] RainDropStyle.Back 0 150 3
      10).newFy 0 = (150 : ℚ) := by
    norm_num [RainDrop.newFy, RainDrop.fromValues]
  have hR : roundAway ((RainDrop.fromValues 1 ['a'] RainDropStyle.Back 0 150 3
      10).newFy 0) = 150 := by
    rw [hfy]
    unfold roundAway
    rw [if_pos (by norm_num)]
    norm_num
  have htail : (100 : ℤ) + ((RainDrop.fromValues 1 ['a'] RainDropStyle.Back 0
      150 3 10).body.length : ℤ) ≤
      roundAway ((RainDrop.fromValues 1 ['a'] RainDropStyle.Back 0 150 3
        10).newFy 0) := by
    rw [hR]
    decide
  exact ⟨htail, update_recycles _ (100, 100) ⟨10, 20⟩ 0 zeroRng (by decide)
    (by decide) (by decide) (by decide) (by rw [hR]; decide) htail⟩

theorem grow_insert_counts_witness :
    ((RainDrop.fromValues 1 ['b'] RainDropStyle.Middle 10 0 20
        12).body.length <
      (RainDrop.fromValues 1 ['b'] RainDropStyle.Middle 10 0 20
        12).maxLength) ∧
    ((8 < (RainDrop.fromValues 1 ['b'] RainDropStyle.Middle 10 0 20 12).speed →
      0 < ((2 : ℕ) : ℤ) - roundAway (RainDrop.fromValues 1 ['b']
        RainDropStyle.Middle 10 0 20 12).fy →
      ∃ cs : List Char, cs.length = (((2 : ℕ) : ℤ) -
          roundAway (RainDrop.fromValues 1 ['b'] RainDropStyle.Middle 10 0 20
            12).fy).toNat ∧
        (∀ c ∈ cs, c ∈ CHARACTERS) ∧
        (((RainDrop.fromValues 1 ['b'] RainDropStyle.Middle 10 0 20 12).grow 2
            zeroRng).1).body =
          (cs ++ (RainDrop.fromValues 1 ['b'] RainDropStyle.Middle 10 0 20
            12).body).take
            (RainDrop.fromValues 1 ['b'] RainDropStyle.Middle 10 0 20
              12).maxLength) ∧
    ((RainDrop.fromValues 1 ['b'] RainDropStyle.Middle 10 0 20 12).speed ≤ 8 →
      0 < ((2 : ℕ) : ℤ) - roundAway (RainDrop.fromValues 1 ['b']
        RainDropStyle.Middle 10 0 20 12).fy →
      ∃ c ∈ CHARACTERS,
        (((RainDrop.fromValues 1 ['b'] RainDropStyle.Middle 10 0 20 12).grow 2
            zeroRng).1).body =
          (c :: (RainDrop.fromValues 1 ['b'] RainDropStyle.Middle 10 0 20
            12).body).take
            (RainDrop.fromValues 1 ['b'] RainDropStyle.Middle 10 0 20
              12).maxLength) ∧
    (((2 : ℕ) : ℤ) - roundAway (RainDrop.fromValues 1 ['b']
        RainDropStyle.Middle 10 0 20 12).fy ≤ 0 →
      (((RainDrop.fromValues 1 ['b'] RainDropStyle.Middle 10 0 20 12).grow 2
          zeroRng).1).body =
        (RainDrop.fromValues 1 ['b'] RainDropStyle.Middle 10 0 20 12).body)) := by
  have hfy : (RainDrop.fromValues 1 ['b'] RainDropStyle.Middle 10 0 20 12).fy =
      (0 : ℚ) := rfl
  have h0 : (0 : ℤ) ≤ roundAway (RainDrop.fromValues 1 ['b']
      RainDropStyle.Middle 10 0 20 12).fy := by
    rw [hfy, roundAway_zero]
  have h1 : roundAway (RainDrop.fromValues 1 ['b'] RainDropStyle.Middle 10 0
      20 12).fy ≤ 32767 := by
    rw [hfy, roundAway_zero]
    norm_num
  exact ⟨by decide, grow_insert_counts _ 2 zeroRng (by decide) (by decide)
    h0 h1⟩

theorem body_length_le_maxLength_witness :
    ((RainDrop.fromValues 1 ['a'] RainDropStyle.Back 0 150 3 10).body.length ≤
      (RainDrop.fromValues 1 ['a'] RainDropStyle.Back 0 150 3 10).maxLength) ∧
    ((((RainDrop.fromValues 1 ['a'] RainDropStyle.Back 0 150 3 10).grow 5
        zeroRng).1).body.length ≤
      (((RainDrop.fromValues 1 ['a'] RainDropStyle.Back 0 150 3 10).grow 5
        zeroRng).1).maxLength ∧
      (⟨1, ['0'], RainDropStyle.Front, 0, 0, 26, 10⟩ :
        RainDrop).body.length ≤
        (⟨1, ['0'], RainDropStyle.Front, 0, 0, 26, 10⟩ :
          RainDrop).maxLength) :=
  ⟨by decide, body_length_le_maxLength _ 5 zeroRng (100, 100) ⟨10, 20⟩ 0 _
    (by decide) recycle_eval⟩

theorem update_empty_body_resets_witness :
    ((RainDrop.fromValues 1 [] RainDropStyle.Middle 10 (108 / 10) 3 8).body =
      []) ∧
    ((RainDrop.fromValues 1 [] RainDropStyle.Middle 10 (108 / 10) 3 8).update
        (100, 100) ⟨10, 20⟩ 1000 zeroRng =
      some (⟨1, ['0'], RainDropStyle.Front, 0, 0, 26, 10⟩,
        ⟨fun _ => 0, 5⟩)) ∧
    ((⟨1, ['0'], RainDropStyle.Front, 0, 0, 26, 10⟩ :
      RainDrop).body.length = 1 ∧
      (⟨1, ['0'], RainDropStyle.Front, 0, 0, 26, 10⟩ : RainDrop).fy = 0) := by
  have hup : (RainDrop.fromValues 1 [] RainDropStyle.Middle 10 (108 / 10) 3
      8).update (100, 100) ⟨10, 20⟩ 1000 zeroRng =
      some (⟨1, ['0'], RainDropStyle.Front, 0, 0, 26, 10⟩,
        ⟨fun _ => 0, 5⟩) := rfl
  exact ⟨rfl, hup, update_empty_body_resets _ (100, 100) ⟨10, 20⟩ 1000
    zeroRng _ rfl hup⟩

theorem toPointsVec_projection_witness :
    ((0 : ℤ) ≤ roundAway (RainDrop.fromValues 1 ['a', 'b', 'c']
      RainDropStyle.Fading 10 10 10 8).fy) ∧
    ((RainDrop.fromValues 1 ['a', 'b', 'c'] RainDropStyle.Fading 10 10 10
        8).toPointsVec =
      (List.range (min (RainDrop.fromValues 1 ['a', 'b', 'c']
          RainDropStyle.Fading 10 10 10 8).body.length
        ((roundAway (RainDrop.fromValues 1 ['a', 'b', 'c']
          RainDropStyle.Fading 10 10 10 8).fy).toNat + 1))).map
        (fun j => ((RainDrop.fromValues 1 ['a', 'b', 'c']
            RainDropStyle.Fading 10 10 10 8).fx,
          (roundAway (RainDrop.fromValues 1 ['a', 'b', 'c']
            RainDropStyle.Fading 10 10 10 8).fy).toNat - j,
          (RainDrop.fromValues 1 ['a', 'b', 'c'] RainDropStyle.Fading 10 10 10
            8).body.getD j ' ')) ∧
      (RainDrop.fromValues 1 ['a', 'b', 'c'] RainDropStyle.Fading 10 10 10
          8).toPointsVec.length =
        min (RainDrop.fromValues 1 ['a', 'b', 'c'] RainDropStyle.Fading 10 10
          10 8).body.length
          ((roundAway (RainDrop.fromValues 1 ['a', 'b', 'c']
            RainDropStyle.Fading 10 10 10 8).fy).toNat + 1) ∧
      ((RainDrop.fromValues 1 ['a', 'b', 'c'] RainDropStyle.Fading 10 10 10
          8).body.length ≤
        (roundAway (RainDrop.fromValues 1 ['a', 'b', 'c']
          RainDropStyle.Fading 10 10 10 8).fy).toNat + 1 →
        (RainDrop.fromValues 1 ['a', 'b', 'c'] RainDropStyle.Fading 10 10 10
            8).toPointsVec.length =
          (RainDrop.fromValues 1 ['a', 'b', 'c'] RainDropStyle.Fading 10 10 10
            8).body.length)) := by
  have hfy : (RainDrop.fromValues 1 ['a', 'b', 'c'] RainDropStyle.Fading 10 10
      10 8).fy = (10 : ℚ) := rfl
  have h10 : roundAway (10 : ℚ) = 10 := by
    unfold roundAway
    rw [if_pos (by norm_num)]
    norm_num
  have h0 : (0 : ℤ) ≤ roundAway (RainDrop.fromValues 1 ['a', 'b', 'c']
      RainDropStyle.Fading 10 10 10 8).fy := by
    rw [hfy, h10]
    norm_num
  have h1 : roundAway (RainDrop.fromValues 1 ['a', 'b', 'c']
      RainDropStyle.Fading 10 10 10 8).fy ≤ 32767 := by
    rw [hfy, h10]
    norm_num
  exact ⟨h0, toPointsVec_projection _ h0 h1⟩

theorem toPoint_projection_witness :
    ((0 : ℤ) ≤ specRound (RainDrop.fromValues 1 ['a'] RainDropStyle.Gradient
      10 (108 / 10) 20 10).fy) ∧
    ((RainDrop.fromValues 1 ['a'] RainDropStyle.Gradient 10 (108 / 10) 20
        10).toPoint =
      ((RainDrop.fromValues 1 ['a'] RainDropStyle.Gradient 10 (108 / 10) 20
        10).fx,
        (specRound (RainDrop.fromValues 1 ['a'] RainDropStyle.Gradient 10
          (108 / 10) 20 10).fy).toNat) ∧
      |(RainDrop.fromValues 1 ['a'] RainDropStyle.Gradient 10 (108 / 10) 20
          10).fy -
        specRound (RainDrop.fromValues 1 ['a'] RainDropStyle.Gradient 10
          (108 / 10) 20 10).fy| ≤ 1 / 2 ∧
      specRound (108 / 10 : ℚ) = 11 ∧
      (∀ x : ℕ, specRound ((x : ℚ) + 1 / 2) = x + 1)) := by
  have hfy : (RainDrop.fromValues 1 ['a'] RainDropStyle.Gradient 10 (108 / 10)
      20 10).fy = (108 / 10 : ℚ) := rfl
  have h11 : specRound (108 / 10 : ℚ) = 11 := by
    unfold specRound
    rw [if_neg (by norm_num), round_eq]
    norm_num
  have h0 : (0 : ℤ) ≤ specRound (RainDrop.fromValues 1 ['a']
      RainDropStyle.Gradient 10 (108 / 10) 20 10).fy := by
    rw [hfy, h11]
    norm_num
  have h1 : specRound (RainDrop.fromValues 1 ['a'] RainDropStyle.Gradient 10
      (108 / 10) 20 10).fy ≤ 65535 := by
    rw [hfy, h11]
    norm_num
  exact ⟨h0, toPoint_projection _ h0 h1⟩

theorem new_drop_invariants_witness :
    (RainDrop.new (10, 100) ⟨1, 1⟩ 0 zeroRng =
      some (⟨0, ['0'], RainDropStyle.Front, 0, ((0 : ℕ) : ℚ), 4, 1⟩,
        ⟨fun _ => 0, 7⟩)) ∧
    (1 ≤ (⟨0, ['0'], RainDropStyle.Front, 0, ((0 : ℕ) : ℚ), 4, 1⟩ :
        RainDrop).body.length ∧
      (⟨0, ['0'], RainDropStyle.Front, 0, ((0 : ℕ) : ℚ), 4, 1⟩ :
        RainDrop).body.length ≤
        (⟨0, ['0'], RainDropStyle.Front, 0, ((0 : ℕ) : ℚ), 4, 1⟩ :
          RainDrop).maxLength / 2 ∧
      1 ≤ (⟨0, ['0'], RainDropStyle.Front, 0, ((0 : ℕ) : ℚ), 4, 1⟩ :
        RainDrop).speed ∧
      (⟨0, ['0'], RainDropStyle.Front, 0, ((0 : ℕ) : ℚ), 4, 1⟩ :
        RainDrop).speed ≤ 1 ∧
      4 ≤ (⟨0, ['0'], RainDropStyle.Front, 0, ((0 : ℕ) : ℚ), 4, 1⟩ :
        RainDrop).maxLength ∧
      (⟨0, ['0'], RainDropStyle.Front, 0, ((0 : ℕ) : ℚ), 4, 1⟩ :
        RainDrop).maxLength ≤ 2 * (10, 100).2 / 3 ∧
      (⟨0, ['0'], RainDropStyle.Front, 0, ((0 : ℕ) : ℚ), 4, 1⟩ :
        RainDrop).fx < (10, 100).1 ∧
      0 ≤ (⟨0, ['0'], RainDropStyle.Front, 0, ((0 : ℕ) : ℚ), 4, 1⟩ :
        RainDrop).fy ∧
      (⟨0, ['0'], RainDropStyle.Front, 0, ((0 : ℕ) : ℚ), 4, 1⟩ :
        RainDrop).fy < (((10, 100).2 / 4 : ℕ) : ℚ)) := by
  have hnew : RainDrop.new (10, 100) ⟨1, 1⟩ 0 zeroRng =
      some (⟨0, ['0'], RainDropStyle.Front, 0, ((0 : ℕ) : ℚ), 4, 1⟩,
        ⟨fun _ => 0, 7⟩) := rfl
  exact ⟨hnew, new_drop_invariants (10, 100) ⟨1, 1⟩ 0 zeroRng _ hnew⟩

theorem new_reset_tolerance_witness :
    (1 ≤ (10, 100).1) ∧
    ((∃ p, RainDrop.new (10, 100) ⟨1, 1⟩ 0 zeroRng = some p) ∧
      (∃ q, (RainDrop.fromValues 0 [] RainDropStyle.Front 0 0 0 0).reset
        (5, 7) ⟨1, 1⟩ zeroRng = some q)) :=
  ⟨by decide, new_reset_tolerance (10, 100) (5, 7) ⟨1, 1⟩ 0 zeroRng zeroRng _
    (by decide) (by decide) (by decide) (by decide) (by decide) (by decide)⟩

theorem style_partition_witness :
    (1 ≤ (37 : ℕ)) ∧
    (1 ≤ styleDrawValue zeroRng ∧ styleDrawValue zeroRng ≤ 100 ∧
      (randStyle zeroRng).1 = styleOfDraw (styleDrawValue zeroRng) ∧
      styleOfDraw 37 = specStyleOfDraw 37) :=
  ⟨by decide, style_partition zeroRng 37 (by decide) (by decide)⟩

theorem body_nonempty_preserved_witness :
    ((RainDrop.fromValues 1 ['a'] RainDropStyle.Back 0 150 3 10).body ≠ []) ∧
    ((((RainDrop.fromValues 1 ['a'] RainDropStyle.Back 0 150 3 10).grow 5
        zeroRng).1).body ≠ [] ∧
      (⟨1, ['0'], RainDropStyle.Front, 0, 0, 26, 10⟩ : RainDrop).body ≠ [] ∧
      (⟨1, ['0'], RainDropStyle.Front, 0, 0, 26, 10⟩ :
        RainDrop).body.length = 1) := by
  have hres : (RainDrop.fromValues 1 ['a'] RainDropStyle.Back 0 150 3
      10).reset (100, 100) ⟨10, 20⟩ zeroRng =
      some (⟨1, ['0'], RainDropStyle.Front, 0, 0, 26, 10⟩,
        ⟨fun _ => 0, 5⟩) := rfl
  exact ⟨by decide, body_nonempty_preserved _ 5 zeroRng zeroRng zeroRng
    (100, 100) ⟨10, 20⟩ 0 _ _ (by decide) (by decide) recycle_eval hres⟩

end Tarts
